import Mathlib

/-!
Verification of the Astra vehicle-exploration core logic: the intent
classifier, the knowledge fetchers, the visualization data shapers, the
suggestion generator and the retry policy of the conversation orchestrator.

The JavaScript sources (`src/CarImage.jsx` and the enhanced chat interface)
are shallowly embedded: JS numbers become `ℚ` (or `ℕ` where the code only
ever sees integers), JS objects become structures or association lists,
`null`/`undefined` become `Option`, a thrown exception becomes
`Except.error`, and `Math.random()` becomes an explicit oracle argument.
-/

namespace Astra

/-! ## A small regular-expression engine

`determineVisualizationType` in `src/CarImage.jsx` tests JavaScript regexes
against the lower-cased query.  Every regex used there is built from literal
characters, the wildcard `.*` (`.` does not match a newline in JS) and
top-level alternation `(a|b)`; an unanchored `RegExp.test` succeeds when the
pattern matches at some position of the string.  We embed exactly that
fragment: a pattern is a token list, a regex is a disjunction of patterns.
-/

inductive Tok where
  | lit : Char → Tok
  | dotStar : Tok
deriving DecidableEq, Repr

/-- Wildcard loop: given the matcher `mh` for the rest of the pattern, try to
resume it at every suffix reachable without crossing a newline (`.` does not
match `\n` in JS). -/
def matchStar (mh : List Char → Bool) : List Char → Bool
  | [] => mh []
  | d :: ds => mh (d :: ds) || (!(d == '\n') && matchStar mh ds)

/-- Match a token list against a prefix of the character list (the rest of
the string may be anything, which matches JS `test` after `matchSearch`
tries every start position). -/
def matchHere : List Tok → List Char → Bool
  | [], _ => true
  | Tok.lit _ :: _, [] => false
  | Tok.lit c :: ts, d :: ds => c == d && matchHere ts ds
  | Tok.dotStar :: ts, ds => matchStar (fun rest => matchHere ts rest) ds

/-- Unanchored search: try to match at every start position, as JS
`RegExp.prototype.test` does. -/
def matchSearch (ts : List Tok) : List Char → Bool
  | [] => matchHere ts []
  | c :: cs => matchHere ts (c :: cs) || matchSearch ts cs

/-- A JS regex of the fragment used: a disjunction of alternatives. -/
def testRegex (alts : List (List Tok)) (s : List Char) : Bool :=
  alts.any fun a => matchSearch a s

/-- Literal tokens of a string. -/
def lits (s : String) : List Tok := s.data.map Tok.lit

/-- Patterns `/compare .* (with|to|against) .*/i`, `/difference between .* and .*/i`,
`/how does .* stack up .*/i`, `/versus|vs/i`, `/(better|worse) than/i`. -/
def comparisonPatterns : List (List (List Tok)) :=
  [ [ lits "compare " ++ [Tok.dotStar] ++ lits " with " ++ [Tok.dotStar],
      lits "compare " ++ [Tok.dotStar] ++ lits " to " ++ [Tok.dotStar],
      lits "compare " ++ [Tok.dotStar] ++ lits " against " ++ [Tok.dotStar] ],
    [ lits "difference between " ++ [Tok.dotStar] ++ lits " and " ++ [Tok.dotStar] ],
    [ lits "how does " ++ [Tok.dotStar] ++ lits " stack up " ++ [Tok.dotStar] ],
    [ lits "versus", lits "vs" ],
    [ lits "better than", lits "worse than" ] ]

/-- Patterns `/evolution of .*/i`, `/changes over time .*/i`, `/history of .*/i`,
`/how has .* changed/i`, `/timeline/i`, `/development/i`. -/
def trendPatterns : List (List (List Tok)) :=
  [ [ lits "evolution of " ++ [Tok.dotStar] ],
    [ lits "changes over time " ++ [Tok.dotStar] ],
    [ lits "history of " ++ [Tok.dotStar] ],
    [ lits "how has " ++ [Tok.dotStar] ++ lits " changed" ],
    [ lits "timeline" ],
    [ lits "development" ] ]

/-- Patterns `/what do (people|owners|users|customers) think/i`, `/reviews/i`,
`/sentiment/i`, `/opinion/i`, `/like|dislike/i`, `/positive|negative/i`,
`/feedback/i`. -/
def sentimentPatterns : List (List (List Tok)) :=
  [ [ lits "what do people think", lits "what do owners think",
      lits "what do users think", lits "what do customers think" ],
    [ lits "reviews" ],
    [ lits "sentiment" ],
    [ lits "opinion" ],
    [ lits "like", lits "dislike" ],
    [ lits "positive", lits "negative" ],
    [ lits "feedback" ] ]

/-- Patterns `/related to/i`, `/connections between/i`, `/relationship with/i`,
`/similar (to|models)/i`, `/family tree/i`, `/predecessors|successors/i`. -/
def relationshipPatterns : List (List (List Tok)) :=
  [ [ lits "related to" ],
    [ lits "connections between" ],
    [ lits "relationship with" ],
    [ lits "similar to", lits "similar models" ],
    [ lits "family tree" ],
    [ lits "predecessors", lits "successors" ] ]

/-- The pattern groups in the object-literal insertion order the code
iterates them in (`Object.entries(patterns)`). -/
def patternGroups : List (String × List (List (List Tok))) :=
  [ ("comparison", comparisonPatterns),
    ("trend", trendPatterns),
    ("sentiment", sentimentPatterns),
    ("relationship", relationshipPatterns) ]

/-- Emulation of `query.toLowerCase()`: lower-case the characters (the patterns only
contain ASCII, for which `Char.toLower` agrees with JS). -/
def jsToLower (s : String) : List Char :=
  s.data.map Char.toLower

/-- Evaluation of `typePatterns.some(pattern => pattern.test(lowerQuery))` for one group,
applied to the lower-cased query. -/
def groupMatches (pats : List (List (List Tok))) (query : String) : Bool :=
  pats.any fun r => testRegex r (jsToLower query)

/-- The `for (const [type, typePatterns] of Object.entries(patterns))` loop:
return the first group some pattern of which matches. -/
def firstMatchingGroup (lq : List Char) :
    List (String × List (List (List Tok))) → Option String
  | [] => none
  | (name, pats) :: rest =>
      if pats.any (fun r => testRegex r lq) then some name
      else firstMatchingGroup lq rest

/-- Emulation of `lowerQuery.includes(term)`: substring test on character lists. -/
def containsList (n : List Char) : List Char → Bool
  | [] => n.isPrefixOf []
  | c :: cs => n.isPrefixOf (c :: cs) || containsList n cs

/-- The secondary feature-term vocabulary. -/
def featureTerms : List String :=
  ["performance", "safety", "reliability", "comfort",
   "fuel economy", "technology", "value", "styling"]

/-- The function `determineVisualizationType` from `src/CarImage.jsx`.  The
JS guard (a falsy or non-string query returns null) rejects the empty
string (the non-string case is unrepresentable here); then the groups are
tried in priority order and, failing that, the feature-term fallback. -/
def determineVisualizationType (query : String) : Option String :=
  if query = "" then none
  else
    let lq := jsToLower query
    match firstMatchingGroup lq patternGroups with
    | some t => some t
    | none =>
        if featureTerms.any (fun t => containsList t.data lq) then
          if containsList "compare".data lq || containsList "other".data lq then
            some "comparison"
          else if containsList "history".data lq || containsList "improved".data lq then
            some "trend"
          else
            some "sentiment"
        else
          none

/-! ## Data model

Row shapes of the backing store and the shaped outputs, from
`src/CarImage.jsx`.  A fetch against the store either yields rows or fails;
we pass that outcome in as an `Except` so the `try`/`catch` policy is
explicit.  JS numbers are `ℚ` (ids and years are `ℕ`, as the code only
compares them). -/

structure CarData where
  id : ℕ
  manufacturer : String
  model : String
  year : ℕ
  body_type : String
deriving DecidableEq, Repr

/-- The display name `` `${year} ${manufacturer} ${model}` ``. -/
def carDisplayName (c : CarData) : String :=
  toString c.year ++ " " ++ c.manufacturer ++ " " ++ c.model

/-- A `car_relationships` row joined with its target car. -/
structure RelRow where
  relationship_type : String
  relationship_strength : ℚ
  metadata : List (String × String)
  target_cars : CarData
deriving DecidableEq, Repr

/-- The shape `getCarRelationships` returns per relationship. -/
structure RelOut where
  id : ℕ
  label : String
  type : String
  strength : ℚ
  metadata : List (String × String)
deriving DecidableEq, Repr

/-- The fetcher `getCarRelationships`: on store error the `catch` returns `[]`;
otherwise each row is formatted for visualization. -/
def getCarRelationships (resp : Except String (List RelRow)) : List RelOut :=
  match resp with
  | Except.error _ => []
  | Except.ok relationships =>
      relationships.map fun rel =>
        { id := rel.target_cars.id
          label := carDisplayName rel.target_cars
          type := rel.relationship_type
          strength := rel.relationship_strength
          metadata := rel.metadata }

/-- A `car_features` row. `feature_rating` may be null; the code falls back
to `feature_value` via `feature_rating || feature_value`. -/
structure FeatRow where
  car_id : ℕ
  category : String
  feature_name : String
  feature_rating : Option ℚ
  feature_value : ℚ
deriving DecidableEq, Repr

/-- JS `x || y` for a nullable number `x`: null and `0` are falsy. -/
def jsOrQ (x : Option ℚ) (y : ℚ) : ℚ :=
  match x with
  | some v => if v = 0 then y else v
  | none => y

/-- Emulation of `[...new Set(l)]`: deduplicate keeping first-occurrence order. -/
def jsSetDedup {α : Type} [BEq α] (l : List α) : List α :=
  l.foldl (fun acc y => if acc.contains y then acc else acc ++ [y]) []

/-- Assignment `obj[k] = v` on an object modelled as an association list:
overwrite an existing key in place, else append. -/
def upsert (m : List (String × ℚ)) (k : String) (v : ℚ) : List (String × ℚ) :=
  if m.any (fun p => p.1 == k) then
    m.map fun p => if p.1 == k then (k, v) else p
  else
    m ++ [(k, v)]

/-- The per-car object `getCarFeatures` builds: category name to an object
of feature name to rating/value. -/
def FeatObj : Type := List (String × List (String × ℚ))

instance : DecidableEq FeatObj := by
  unfold FeatObj
  infer_instance

/-- The fetcher `getCarFeatures(carIds)`: on store error the `catch` returns the empty
object `{}` (here the empty association list); on success every requested
id gets an entry (`result[id] = {}` runs for each id), grouped by category
with features reduced into an object. -/
def getCarFeatures (carIds : List ℕ) (resp : Except String (List FeatRow)) :
    List (ℕ × FeatObj) :=
  match resp with
  | Except.error _ => []
  | Except.ok features =>
      carIds.map fun id =>
        let carFeatures := features.filter fun f => f.car_id == id
        let categories := jsSetDedup (carFeatures.map (·.category))
        (id,
         categories.map fun category =>
           (category,
            (carFeatures.filter fun f => f.category == category).foldl
              (fun acc feat =>
                upsert acc feat.feature_name (jsOrQ feat.feature_rating feat.feature_value))
              []))

/-- Property read `obj[id]` on the features object: `none` models
`undefined`. -/
def objLookup (m : List (ℕ × FeatObj)) (id : ℕ) : Option FeatObj :=
  (m.find? fun p => p.1 == id).map (·.2)

/-- A `car_timeline` row. -/
structure TimelineEvent where
  year : ℕ
  event_type : String
  significance_score : ℚ
deriving DecidableEq, Repr

/-- The fetcher `getCarTimeline`: store error is caught and yields `[]`; otherwise the
rows are returned as delivered (the store orders them by ascending year,
but the function itself imposes nothing). -/
def getCarTimeline (resp : Except String (List TimelineEvent)) : List TimelineEvent :=
  match resp with
  | Except.error _ => []
  | Except.ok events => events

/-- A `review_analysis` row: non-negative mention counts per aspect, with
nullable key-term lists. -/
structure SentimentRow where
  aspect : String
  positive_count : ℕ
  negative_count : ℕ
  neutral_count : ℕ
  key_positive_terms : Option (List String)
  key_negative_terms : Option (List String)
deriving DecidableEq, Repr

/-- The shape `getReviewSentiment` returns per aspect. -/
structure SentimentOut where
  aspect : String
  positive : ℤ
  negative : ℤ
  neutral : ℤ
  key_positive : List String
  key_negative : List String
deriving DecidableEq, Repr

/-- JS `Math.round` on the non-negative rationals that occur here:
round half away from zero, i.e. `⌊q + 1/2⌋`. -/
def jsRound (q : ℚ) : ℤ :=
  ⌊q + 1 / 2⌋

/-- One row of the formatting done by `getReviewSentiment`:
`Math.round((count / total) * 100) || 0`.  When the total is `0` the JS
quotient is `NaN`, `Math.round` keeps it `NaN`, and `|| 0` turns it into
`0`; we model that with the explicit guard. -/
def formatSentimentRow (item : SentimentRow) : SentimentOut :=
  let total : ℚ :=
    (item.positive_count : ℚ) + (item.negative_count : ℚ) + (item.neutral_count : ℚ)
  { aspect := item.aspect
    positive := if total = 0 then 0 else jsRound ((item.positive_count : ℚ) / total * 100)
    negative := if total = 0 then 0 else jsRound ((item.negative_count : ℚ) / total * 100)
    neutral := if total = 0 then 0 else jsRound ((item.neutral_count : ℚ) / total * 100)
    key_positive := item.key_positive_terms.getD []
    key_negative := item.key_negative_terms.getD [] }

/-- The fetcher `getReviewSentiment`: store error is caught and yields `[]`; otherwise
each row is formatted with derived percentages. -/
def getReviewSentiment (resp : Except String (List SentimentRow)) : List SentimentOut :=
  match resp with
  | Except.error _ => []
  | Except.ok sentiment => sentiment.map formatSentimentRow

/-! ## Visualization data shaping (`generateVisualizationData`)

Each `case` of the `switch` becomes its own function, taking the store
responses its fetches would produce and, for the comparison case, the
`Math.random()` oracle.  The comparison case can throw (a `TypeError` when
`features[id]` is `undefined`), so it returns an `Except`. -/

structure EntityInfo where
  id : ℕ
  name : String
  color : String
deriving DecidableEq, Repr

structure ComparisonPayload where
  categories : List String
  entities : List EntityInfo
  values : List (List ℚ)
deriving DecidableEq, Repr

/-- The fixed category list of the comparison case. -/
def comparisonCategories : List String :=
  ["Performance", "Comfort", "Safety", "Technology", "Value"]

/-- The read `features[id][cat]?.overall` once `features[id]` is known to exist:
`undefined` when the category or its `overall` feature is missing. -/
def overallFor (fo : FeatObj) (cat : String) : Option ℚ :=
  ((fo.find? fun p => p.1 == cat).map (·.2)).bind fun feats =>
    (feats.find? fun p => p.1 == "overall").map (·.2)

/-- One `values` row: `features[id][cat]?.overall || Math.random() * 2 + 3`
for each category.  The oracle index `base + i` identifies the call site;
`rnd` stands for `Math.random() * 2 + 3` and hence ranges over `[3, 5)`. -/
def entityValues (fo : FeatObj) (rnd : ℕ → ℚ) (base : ℕ) : List ℚ :=
  (comparisonCategories.zip (List.range comparisonCategories.length)).map
    fun p =>
      match overallFor fo p.1 with
      | some v => if v = 0 then rnd (base + p.2) else v
      | none => rnd (base + p.2)

/-- The comparison branch of `generateVisualizationData`.  Note the
un-guarded object dereference `features[carData.id][cat]` (and likewise for
each competitor): when the features object has no entry for the id — which
is exactly the fail-closed `{}` of a failed fetch — JS raises
`TypeError: Cannot read properties of undefined`, modelled as
`Except.error`. -/
def comparisonCase (carData : CarData) (relResp : Except String (List RelRow))
    (featResp : Except String (List FeatRow)) (rnd : ℕ → ℚ) :
    Except String ComparisonPayload :=
  let relationships := getCarRelationships relResp
  let competitors := (relationships.filter fun rel => rel.type == "competitor").take 2
  let carIds := carData.id :: competitors.map (·.id)
  let features := getCarFeatures carIds featResp
  let valuesE : Except String (List (List ℚ)) :=
    (carIds.zip (List.range carIds.length)).mapM fun p =>
      match objLookup features p.1 with
      | none => Except.error "TypeError: Cannot read properties of undefined"
      | some fo => Except.ok (entityValues fo rnd (p.2 * comparisonCategories.length))
  match valuesE with
  | Except.error e => Except.error e
  | Except.ok values =>
      Except.ok
        { categories := comparisonCategories
          entities :=
            { id := carData.id, name := carDisplayName carData, color := "#8884d8" } ::
              (competitors.zip (List.range competitors.length)).map fun p =>
                { id := p.1.id
                  name := p.1.label
                  color := if p.2 = 0 then "#82ca9d" else "#ffc658" }
          values := values }

structure TrendPoint where
  label : String
  Safety : Option ℚ
  Performance : Option ℚ
  Technology : Option ℚ
deriving DecidableEq, Repr

structure SeriesInfo where
  key : String
  name : String
  color : String
deriving DecidableEq, Repr

structure TrendPayload where
  timeSeriesData : List TrendPoint
  series : List SeriesInfo
  yDomain : ℕ × ℕ
deriving DecidableEq, Repr

/-- JS `Array.prototype.sort()` with no comparator sorts by the string
representations of the elements; on the deduplicated years that is a stable
insertion of `Nat.repr`-compared keys. -/
def jsDefaultSortNat (l : List ℕ) : List ℕ :=
  l.insertionSort fun a b => Nat.repr a ≤ Nat.repr b

/-- JS `x || null` on a possibly-missing score: `undefined` and `0` both
collapse to `null`. -/
def jsOrNull (x : Option ℚ) : Option ℚ :=
  match x with
  | some v => if v = 0 then none else some v
  | none => none

/-- The find-based per-year projection of one series:
`yearEvents.find(e => e.event_type === t)?.significance_score || null`. -/
def seriesValue (yearEvents : List TimelineEvent) (t : String) : Option ℚ :=
  jsOrNull ((yearEvents.find? fun e => e.event_type == t).map (·.significance_score))

/-- The trend branch of `generateVisualizationData`. -/
def trendCase (timelineResp : Except String (List TimelineEvent)) : TrendPayload :=
  let timelineData := getCarTimeline timelineResp
  let years := jsDefaultSortNat (jsSetDedup (timelineData.map (·.year)))
  { timeSeriesData :=
      years.map fun year =>
        let yearEvents := timelineData.filter fun e => e.year == year
        { label := toString year
          Safety := seriesValue yearEvents "safety"
          Performance := seriesValue yearEvents "performance"
          Technology := seriesValue yearEvents "technology" }
    series :=
      [ { key := "Safety", name := "Safety Rating", color := "#8884d8" },
        { key := "Performance", name := "Performance Rating", color := "#82ca9d" },
        { key := "Technology", name := "Technology Rating", color := "#ffc658" } ]
    yDomain := (0, 5) }

structure SentimentPayload where
  aspectData : List SentimentOut
deriving DecidableEq, Repr

/-- The sentiment branch of `generateVisualizationData`: sort aspects by total mention volume
descending and keep the top 7. -/
def sentimentCase (sentResp : Except String (List SentimentRow)) : SentimentPayload :=
  let sentimentData := getReviewSentiment sentResp
  { aspectData :=
      (sentimentData.insertionSort fun a b =>
        b.positive + b.negative ≤ a.positive + a.negative).take 7 }

structure NodeInfo where
  id : ℕ
  label : String
  type : String
deriving DecidableEq, Repr

structure LinkInfo where
  source : ℕ
  target : ℕ
  type : String
  strength : ℚ
deriving DecidableEq, Repr

structure PrimaryNode where
  id : ℕ
  label : String
deriving DecidableEq, Repr

structure RelationshipPayload where
  primaryNode : PrimaryNode
  nodes : List NodeInfo
  links : List LinkInfo
deriving DecidableEq, Repr

/-- The relationship branch of `generateVisualizationData`. -/
def relationshipCase (carData : CarData) (relResp : Except String (List RelRow)) :
    RelationshipPayload :=
  let allRelationships := getCarRelationships relResp
  { primaryNode := { id := carData.id, label := carDisplayName carData }
    nodes :=
      { id := carData.id, label := carDisplayName carData, type := "primary" } ::
        allRelationships.map fun rel => { id := rel.id, label := rel.label, type := rel.type }
    links :=
      allRelationships.map fun rel =>
        { source := carData.id, target := rel.id, type := rel.type, strength := rel.strength } }

/-! ## The enhanced chat interface

`generateSuggestions`, the success-path component assembly and the
failure-path retry policy of `handleSend`. -/

/-- Substring containment as JS `String.prototype.includes`. -/
def containsStr (n s : String) : Bool :=
  containsList n.data s.data

/-- The context object `generateSuggestions` receives. -/
structure SuggestionContext where
  carData : Option CarData
  intent : Option String
  conversationLength : ℕ
deriving DecidableEq, Repr

/-- The function `generateSuggestions` from the enhanced chat interface: generic
questions without an entity; five entity templates early in the
conversation; otherwise an intent-keyed template set with a generic
default. -/
def generateSuggestions (context : SuggestionContext) : List String :=
  match context.carData with
  | none =>
      [ "What cars do you recommend?",
        "Tell me about SUVs",
        "What are the most fuel-efficient cars?",
        "What should I look for when buying a used car?",
        "What are the safest family vehicles?" ]
  | some carData =>
      let carName := carDisplayName carData
      if context.conversationLength ≤ 2 then
        [ "What\x27s the fuel economy like for the " ++ carName ++ "?",
          "Tell me about the engine in the " ++ carName,
          "How comfortable is the " ++ carName ++ "?",
          "What are the safety features in the " ++ carName ++ "?",
          "Is the " ++ carName ++ " reliable?" ]
      else
        match context.intent with
        | some "fuel_economy" =>
            [ "How does the " ++ carName ++ "\x27s fuel economy compare to competitors?",
              "What\x27s the driving range of the " ++ carName ++ "?",
              "Does the " ++ carName ++ " require premium fuel?",
              "Are there any fuel-saving features in the " ++ carName ++ "?" ]
        | some "performance" =>
            [ "What\x27s the horsepower of the " ++ carName ++ "?",
              "How does the " ++ carName ++ " handle in different conditions?",
              "What\x27s the 0-60 time for the " ++ carName ++ "?",
              "How is the braking performance of the " ++ carName ++ "?" ]
        | some "reliability" =>
            [ "What are common issues with the " ++ carName ++ "?",
              "How long do " ++ carData.manufacturer ++ " vehicles typically last?",
              "What\x27s the warranty coverage for the " ++ carName ++ "?",
              "Is the " ++ carName ++ " expensive to maintain?" ]
        | some "safety" =>
            [ "What safety ratings does the " ++ carName ++ " have?",
              "Does the " ++ carName ++ " have advanced driver assistance?",
              "How many airbags does the " ++ carName ++ " have?",
              "Is the " ++ carName ++ " a good family vehicle?" ]
        | _ =>
            [ "How does the " ++ carName ++ " compare to similar vehicles?",
              "What are owners saying about the " ++ carName ++ "?",
              "What are the pros and cons of the " ++ carName ++ "?",
              "Would you recommend the " ++ carName ++ "?" ]

/-- The `analysis` object of a chat-backend response; every field is
optional (duck-typed JSON). -/
structure Analysis where
  category_scores : Option (List (String × ℚ))
  common_pros : Option (List String)
  common_cons : Option (List String)
  sentiment : Option (List (String × ℚ))
  average_rating : Option ℚ
deriving DecidableEq, Repr

/-- A chat-backend response as consumed by `handleSend`. -/
structure ChatResponse where
  response : String
  car_data : Option CarData
  analysis : Option Analysis
  intent : Option String
deriving DecidableEq, Repr

/-- The structured cards `handleSend` can attach to an AI message. -/
inductive Component where
  | specification : CarData → Component
  | category_scores : List (String × ℚ) → Component
  | pros_cons : List String → List String → Component
  | sentiment : List (String × ℚ) → Component
  | rating : ℚ → ℚ → Component
deriving DecidableEq, Repr

/-- Is the component the rating card? -/
def isRatingComponent : Component → Bool
  | Component.rating _ _ => true
  | _ => false

/-- JS truthy-and-nonempty test `list && list.length > 0`. -/
def optNonempty {α : Type} (o : Option (List α)) : Bool :=
  match o with
  | some l => !l.isEmpty
  | none => false

/-- The success-path component assembly of `handleSend`: spec card when car
data arrives early in the conversation, category-score card when scores are
present and non-empty, pros/cons card when either list is non-empty,
sentiment card when sentiment is present (any object is truthy), and a
rating card when `analysis.average_rating` is truthy (a number is truthy
exactly when it is non-zero); its review count sums the sentiment values. -/
def buildAiComponents (data : ChatResponse) (messagesLength : ℕ) : List Component :=
  match data.analysis with
  | some analysis =>
      (match data.car_data with
       | some cd => if messagesLength ≤ 2 then [Component.specification cd] else []
       | none => []) ++
      (match analysis.category_scores with
       | some scores => if 0 < scores.length then [Component.category_scores scores] else []
       | none => []) ++
      (if optNonempty analysis.common_pros || optNonempty analysis.common_cons then
        [Component.pros_cons (analysis.common_pros.getD []) (analysis.common_cons.getD [])]
       else []) ++
      (match analysis.sentiment with
       | some s => [Component.sentiment s]
       | none => []) ++
      (match analysis.average_rating with
       | some r =>
          if r = 0 then []
          else
            [Component.rating r
              (match analysis.sentiment with
               | some s => (s.map (·.2)).sum
               | none => 0)]
       | none => [])
  | none =>
      match data.car_data with
      | some cd => if messagesLength ≤ 2 then [Component.specification cd] else []
      | none => []

/-- The error state `handleSend` keeps (`useState({hasError, retryCount})`). -/
structure ErrorState where
  hasError : Bool
  retryCount : ℕ
deriving DecidableEq, Repr

/-- The error message appended in the `catch` block. -/
structure FailMsg where
  text : String
  sender : String
  error : Bool
  showRetry : Bool
  carName : Option String
deriving DecidableEq, Repr

/-- The supplementary fallback message appended after the third failure. -/
structure FallbackMsg where
  text : String
  sender : String
  suggestions : List String
deriving DecidableEq, Repr

/-- Tier-1 wording: first failure. -/
def tier1Text : String :=
  "I\x27m having trouble accessing information about this vehicle. Let me try again..."

/-- Tier-2 wording: second failure. -/
def tier2Text : String :=
  "I apologize for the difficulty. My connection to the vehicle database seems unstable right now."

/-- Tier-3 wording: third and later failures. -/
def tier3Text : String :=
  "I\x27m very sorry, but I\x27m unable to connect to our automotive database at the moment. I can still chat about general car topics or answer basic questions about this model based on what I already know."

/-- The `catch` block of `handleSend`: bump the retry count, append one
tiered error message (with a retry affordance only for the first two
failures), and — only when car data is present — append the supplementary
generic-suggestions message once the count reaches 3. -/
def handleSendFailure (carData : Option CarData) (errorState : ErrorState) :
    ErrorState × FailMsg × Option FallbackMsg :=
  let newRetryCount := errorState.retryCount + 1
  let errorMessage :=
    if newRetryCount = 1 then tier1Text
    else if newRetryCount = 2 then tier2Text
    else tier3Text
  (⟨true, newRetryCount⟩,
   { text := errorMessage
     sender := "ai"
     error := true
     showRetry := newRetryCount < 3
     carName := carData.map carDisplayName },
   if 3 ≤ newRetryCount then
     carData.map fun cd =>
       { text := "I can still tell you general information about the " ++
           carDisplayName cd ++
           " based on my automotive knowledge. What would you like to know?"
         sender := "ai"
         suggestions :=
           [ "Tell me about this car model",
             "What\x27s this car known for?",
             "Common issues with this model",
             "What should I look for when buying?" ] }
   else none)

/-! ## Claim-side characterizations and concrete inputs -/

/-- Per-year, per-series value as the (amended) trend claim words it: the
score of the first event of that year with the given type, in input order,
taken unless it is `0` (in which case, like absence, it yields null). -/
def firstMatchScore (evs : List TimelineEvent) (y : ℕ) (t : String) : Option ℚ :=
  match (evs.filter fun e => e.year == y).find? fun e => e.event_type == t with
  | none => none
  | some e => if e.significance_score = 0 then none else some e.significance_score

/-- The time-series point the (amended) trend claim predicts for year `y`. -/
def claimedPoint (evs : List TimelineEvent) (y : ℕ) : TrendPoint :=
  { label := toString y
    Safety := firstMatchScore evs y "safety"
    Performance := firstMatchScore evs y "performance"
    Technology := firstMatchScore evs y "technology" }

/-- A concrete primary entity, used by witnesses. -/
def exampleCar : CarData :=
  { id := 1, manufacturer := "Honda", model := "Civic", year := 2022, body_type := "sedan" }

/-- A concrete relationship row, used by witnesses. -/
def exampleRelRow : RelRow :=
  { relationship_type := "competitor"
    relationship_strength := 4
    metadata := []
    target_cars :=
      { id := 2, manufacturer := "Toyota", model := "Corolla", year := 2022,
        body_type := "sedan" } }

/-- A concrete backend analysis whose average rating is present but `0`. -/
def exampleAnalysis : Analysis :=
  { category_scores := none, common_pros := none, common_cons := none,
    sentiment := none, average_rating := some 0 }

/-- A concrete backend response carrying `exampleAnalysis`. -/
def exampleChatData : ChatResponse :=
  { response := "ok", car_data := none, analysis := some exampleAnalysis, intent := none }

instance : IsTotal ℕ fun a b => Nat.repr a ≤ Nat.repr b :=
  ⟨fun a b => le_total (Nat.repr a) (Nat.repr b)⟩

instance : IsTrans ℕ fun a b => Nat.repr a ≤ Nat.repr b :=
  ⟨fun _ _ _ h h2 => le_trans h h2⟩

/-! ## Helper lemmas -/

theorem groupMatches_empty :
    groupMatches comparisonPatterns "" = false ∧
    groupMatches trendPatterns "" = false ∧
    groupMatches sentimentPatterns "" = false ∧
    groupMatches relationshipPatterns "" = false := by
  decide

theorem determine_of_comparison (q : String)
    (h : groupMatches comparisonPatterns q = true) :
    determineVisualizationType q = some "comparison" := by
  have hq : q ≠ "" := by
    rintro rfl
    rw [groupMatches_empty.1] at h
    exact Bool.false_ne_true h
  simp only [groupMatches] at h
  simp [determineVisualizationType, firstMatchingGroup, patternGroups, hq, h]

theorem determine_of_trend (q : String)
    (h1 : groupMatches comparisonPatterns q = false)
    (h2 : groupMatches trendPatterns q = true) :
    determineVisualizationType q = some "trend" := by
  have hq : q ≠ "" := by
    rintro rfl
    rw [groupMatches_empty.2.1] at h2
    exact Bool.false_ne_true h2
  simp only [groupMatches] at h1 h2
  simp [determineVisualizationType, firstMatchingGroup, patternGroups, hq, h1, h2]

theorem determine_of_sentiment (q : String)
    (h1 : groupMatches comparisonPatterns q = false)
    (h2 : groupMatches trendPatterns q = false)
    (h3 : groupMatches sentimentPatterns q = true) :
    determineVisualizationType q = some "sentiment" := by
  have hq : q ≠ "" := by
    rintro rfl
    rw [groupMatches_empty.2.2.1] at h3
    exact Bool.false_ne_true h3
  simp only [groupMatches] at h1 h2 h3
  simp [determineVisualizationType, firstMatchingGroup, patternGroups, hq, h1, h2, h3]

theorem determine_of_relationship (q : String)
    (h1 : groupMatches comparisonPatterns q = false)
    (h2 : groupMatches trendPatterns q = false)
    (h3 : groupMatches sentimentPatterns q = false)
    (h4 : groupMatches relationshipPatterns q = true) :
    determineVisualizationType q = some "relationship" := by
  have hq : q ≠ "" := by
    rintro rfl
    rw [groupMatches_empty.2.2.2] at h4
    exact Bool.false_ne_true h4
  simp only [groupMatches] at h1 h2 h3 h4
  simp [determineVisualizationType, firstMatchingGroup, patternGroups, hq, h1, h2, h3, h4]

/-! ## C1 -/

/-- C1: the intent classifier evaluates the four pattern groups in the
fixed priority order comparison > trend > sentiment > relationship and
returns the category of the first group containing a matching pattern; in
particular, every query matching at least one comparison pattern and at
least one relationship pattern is classified as comparison. -/
theorem c1_classifier_priority (q : String) :
    (groupMatches comparisonPatterns q = true →
        determineVisualizationType q = some "comparison") ∧
    (groupMatches comparisonPatterns q = false →
        groupMatches trendPatterns q = true →
        determineVisualizationType q = some "trend") ∧
    (groupMatches comparisonPatterns q = false →
        groupMatches trendPatterns q = false →
        groupMatches sentimentPatterns q = true →
        determineVisualizationType q = some "sentiment") ∧
    (groupMatches comparisonPatterns q = false →
        groupMatches trendPatterns q = false →
        groupMatches sentimentPatterns q = false →
        groupMatches relationshipPatterns q = true →
        determineVisualizationType q = some "relationship") ∧
    (groupMatches comparisonPatterns q = true →
        groupMatches relationshipPatterns q = true →
        determineVisualizationType q = some "comparison") :=
  ⟨determine_of_comparison q,
   determine_of_trend q,
   determine_of_sentiment q,
   determine_of_relationship q,
   fun h _ => determine_of_comparison q h⟩

/-- Witness for C1 at the query "compare a to b similar to c", which
matches a comparison pattern and a relationship pattern and is classified
as comparison. -/
theorem c1_classifier_priority_witness :
    groupMatches comparisonPatterns "compare a to b similar to c" = true ∧
    groupMatches relationshipPatterns "compare a to b similar to c" = true ∧
    determineVisualizationType "compare a to b similar to c" = some "comparison" :=
  ⟨by decide, by decide,
   (c1_classifier_priority "compare a to b similar to c").2.2.2.2 (by decide) (by decide)⟩

/-! ## C2 -/

/-- C2 (code bug): when the feature fetch fails closed with the empty
mapping, comparison shaping dereferences `features[carData.id]` (which is
`undefined`) and throws, instead of returning a payload with randomized
placeholders as the claim states. -/
theorem c2_comparison_throws_on_failed_features :
    comparisonCase exampleCar (Except.ok []) (Except.error "store failure")
        (fun _ => 7 / 2) =
      Except.error "TypeError: Cannot read properties of undefined" := by
  rfl

/-! ## C5 -/

theorem jsRound_eq (q : ℚ) (m : ℤ) (h1 : (m : ℚ) ≤ q + 1 / 2) (h2 : q + 1 / 2 < m + 1) :
    jsRound q = m := by
  unfold jsRound
  exact Int.floor_eq_iff.mpr ⟨h1, by exact_mod_cast h2⟩

/-- C5 counterexample: the aspect row with counts (1, 1, 6) rounds to
13% + 13% + 75% = 101%, exceeding the claimed bound of 100. -/
theorem c5_counterexample :
    (formatSentimentRow ⟨"comfort", 1, 1, 6, none, none⟩).positive +
        (formatSentimentRow ⟨"comfort", 1, 1, 6, none, none⟩).negative +
        (formatSentimentRow ⟨"comfort", 1, 1, 6, none, none⟩).neutral = 101 ∧
    ¬((formatSentimentRow ⟨"comfort", 1, 1, 6, none, none⟩).positive +
        (formatSentimentRow ⟨"comfort", 1, 1, 6, none, none⟩).negative +
        (formatSentimentRow ⟨"comfort", 1, 1, 6, none, none⟩).neutral ≤ 100) := by
  have e1 : (formatSentimentRow ⟨"comfort", 1, 1, 6, none, none⟩).positive = 13 := by
    simp only [formatSentimentRow]
    norm_num
    rw [jsRound_eq _ 13 (by norm_num) (by norm_num)]
  have e2 : (formatSentimentRow ⟨"comfort", 1, 1, 6, none, none⟩).negative = 13 := by
    simp only [formatSentimentRow]
    norm_num
    rw [jsRound_eq _ 13 (by norm_num) (by norm_num)]
  have e3 : (formatSentimentRow ⟨"comfort", 1, 1, 6, none, none⟩).neutral = 75 := by
    simp only [formatSentimentRow]
    norm_num
    rw [jsRound_eq _ 75 (by norm_num) (by norm_num)]
  rw [e1, e2, e3]
  norm_num

/-- C5 (amended): for every sentiment aggregate row with non-negative
integer counts, the derived positive, negative, and neutral percentages sum
to at most 101. -/
theorem c5_percentages_sum_le_101 (item : SentimentRow) :
    (formatSentimentRow item).positive + (formatSentimentRow item).negative +
      (formatSentimentRow item).neutral ≤ 101 := by
  unfold formatSentimentRow
  set p : ℚ := (item.positive_count : ℚ) with hp
  set n : ℚ := (item.negative_count : ℚ) with hn
  set u : ℚ := (item.neutral_count : ℚ) with hu
  by_cases h : p + n + u = 0
  · simp [h]
  · simp only [h, if_false]
    have habc : p / (p + n + u) * 100 + n / (p + n + u) * 100 + u / (p + n + u) * 100
        = 100 := by
      field_simp
      ring
    have hb1 : (jsRound (p / (p + n + u) * 100) : ℚ) ≤ p / (p + n + u) * 100 + 1 / 2 :=
      Int.floor_le _
    have hb2 : (jsRound (n / (p + n + u) * 100) : ℚ) ≤ n / (p + n + u) * 100 + 1 / 2 :=
      Int.floor_le _
    have hb3 : (jsRound (u / (p + n + u) * 100) : ℚ) ≤ u / (p + n + u) * 100 + 1 / 2 :=
      Int.floor_le _
    have hsum : ((jsRound (p / (p + n + u) * 100) + jsRound (n / (p + n + u) * 100) +
        jsRound (u / (p + n + u) * 100) : ℤ) : ℚ) < 102 := by
      push_cast
      linarith [hb1, hb2, hb3, habc]
    have : jsRound (p / (p + n + u) * 100) + jsRound (n / (p + n + u) * 100) +
        jsRound (u / (p + n + u) * 100) < 102 := by
      exact_mod_cast hsum
    omega

/-! ## C3 -/

theorem seriesValue_filter_eq (evs : List TimelineEvent) (y : ℕ) (t : String) :
    seriesValue (evs.filter fun e => e.year == y) t = firstMatchScore evs y t := by
  unfold seriesValue firstMatchScore jsOrNull
  cases h : (evs.filter fun e => e.year == y).find? fun e => e.event_type == t <;>
    simp [h]

theorem trend_timeSeriesData (evs : List TimelineEvent) :
    (trendCase (Except.ok evs)).timeSeriesData =
      (jsDefaultSortNat (jsSetDedup (evs.map (·.year)))).map (claimedPoint evs) := by
  simp only [trendCase, getCarTimeline]
  apply List.map_congr_left
  intro y _
  simp [claimedPoint, seriesValue_filter_eq]

/-- C3 counterexample: with two safety events in 2020 scored 2 then 4, the
code projects the score of the first matching event (2), not the most
significant one (4), refuting the claim as stated. -/
theorem c3_counterexample :
    (trendCase (Except.ok [⟨2020, "safety", 2⟩, ⟨2020, "safety", 4⟩])).timeSeriesData =
      [{ label := "2020", Safety := some 2, Performance := none, Technology := none }] ∧
    (trendCase (Except.ok [⟨2020, "safety", 2⟩, ⟨2020, "safety", 4⟩])).timeSeriesData ≠
      [{ label := "2020", Safety := some 4, Performance := none, Technology := none }] := by
  constructor <;> decide

/-- C3 (amended): trend shaping produces one time-series point per distinct
year, ordered ascending by the decimal string representation of the year (the JS
default sort), labeled with the year as a string; each point carries, for
each of the three fixed series, the significance score of the first
matching event of that year in input order, with null where no such event
exists or where its score is 0; yDomain is fixed at [0,5]. -/
theorem c3_trend_shaping (evs : List TimelineEvent) :
    (trendCase (Except.ok evs)).timeSeriesData.length =
      (jsSetDedup (evs.map (·.year))).length ∧
    List.Sorted (fun a b => a ≤ b)
      ((trendCase (Except.ok evs)).timeSeriesData.map TrendPoint.label) ∧
    (trendCase (Except.ok evs)).yDomain = (0, 5) ∧
    ∀ y ∈ jsSetDedup (evs.map (·.year)),
      claimedPoint evs y ∈ (trendCase (Except.ok evs)).timeSeriesData := by
  refine ⟨?_, ?_, rfl, ?_⟩
  · rw [trend_timeSeriesData]
    simp [jsDefaultSortNat, List.length_insertionSort]
  · rw [trend_timeSeriesData, List.map_map]
    have hlab : (TrendPoint.label ∘ claimedPoint evs) = fun y => Nat.repr y := by
      funext y
      rfl
    rw [hlab]
    have hsorted : List.Sorted (fun a b => Nat.repr a ≤ Nat.repr b)
        (jsDefaultSortNat (jsSetDedup (evs.map (·.year)))) :=
      List.sorted_insertionSort _ _
    rw [List.Sorted, List.pairwise_map]
    exact hsorted
  · intro y hy
    rw [trend_timeSeriesData]
    apply List.mem_map_of_mem
    exact (List.perm_insertionSort _ _).mem_iff.mpr hy

/-- Witness for C3 at the single-event example from the claim. -/
theorem c3_trend_shaping_witness :
    claimedPoint [⟨2020, "safety", 4⟩] 2020 ∈
      (trendCase (Except.ok [⟨2020, "safety", 4⟩])).timeSeriesData ∧
    (trendCase (Except.ok [⟨2020, "safety", 4⟩])).timeSeriesData =
      [{ label := "2020", Safety := some 4, Performance := none, Technology := none }] :=
  ⟨(c3_trend_shaping [⟨2020, "safety", 4⟩]).2.2.2 2020 (by decide), by decide⟩

/-! ## C4 -/

/-- C4 counterexample: with no car data, the third consecutive failure
raises the retry count to 3 yet appends no supplementary fallback message,
refuting the claim as stated (which requires one whenever the new retry
count is at least 3). -/
theorem c4_counterexample :
    (handleSendFailure none ⟨true, 2⟩).1.retryCount = 3 ∧
    (handleSendFailure none ⟨true, 2⟩).2.2 = none := by
  constructor <;> rfl

/-- C4 (amended): on each consecutive chat-backend failure the orchestrator
increments the retry count and appends exactly one system message, tiered
by the new count (1 → trying again, 2 → apologize/unstable, ≥ 3 → cannot
connect, with no escalation past tier 3); the retry affordance is shown
exactly when the new count is below 3; and the additional generic
fallback-suggestions message is appended exactly when the new count is at
least 3 AND car data is present. -/
theorem c4_retry_policy (carData : Option CarData) (st : ErrorState) :
    (handleSendFailure carData st).1.retryCount = st.retryCount + 1 ∧
    (st.retryCount + 1 = 1 → (handleSendFailure carData st).2.1.text = tier1Text) ∧
    (st.retryCount + 1 = 2 → (handleSendFailure carData st).2.1.text = tier2Text) ∧
    (3 ≤ st.retryCount + 1 → (handleSendFailure carData st).2.1.text = tier3Text) ∧
    ((handleSendFailure carData st).2.1.showRetry = true ↔ st.retryCount + 1 < 3) ∧
    ((handleSendFailure carData st).2.2.isSome = true ↔
      (3 ≤ st.retryCount + 1 ∧ carData.isSome = true)) := by
  refine ⟨rfl, ?_, ?_, ?_, ?_, ?_⟩
  · intro h1
    simp only [handleSendFailure]
    rw [if_pos h1]
  · intro h2
    simp only [handleSendFailure]
    rw [if_neg (by omega), if_pos h2]
  · intro h3
    simp only [handleSendFailure]
    rw [if_neg (by omega), if_neg (by omega)]
  · simp only [handleSendFailure]
    simp [decide_eq_true_iff]
  · simp only [handleSendFailure]
    rcases carData with _ | cd
    · by_cases h : 3 ≤ st.retryCount + 1 <;> simp [h]
    · by_cases h : 3 ≤ st.retryCount + 1 <;> simp [h]

/-- Witness for C4: a third failure with car data present uses tier-3
wording and does append the supplementary message. -/
theorem c4_retry_policy_witness :
    (handleSendFailure (some exampleCar) ⟨true, 2⟩).2.1.text = tier3Text ∧
    (handleSendFailure (some exampleCar) ⟨true, 2⟩).2.2.isSome = true :=
  ⟨(c4_retry_policy (some exampleCar) ⟨true, 2⟩).2.2.2.1 (by norm_num),
   ((c4_retry_policy (some exampleCar) ⟨true, 2⟩).2.2.2.2.2).mpr ⟨by norm_num, rfl⟩⟩

/-! ## C6 -/

/-- C6: for a sentiment aggregate row whose three counts are all 0, the
derived positive and negative percentages are both 0, and the computation
is total (the divide-by-zero `NaN` is absorbed by the `|| 0` guard). -/
theorem c6_zero_counts (aspect : String) (kp kn : Option (List String)) :
    (formatSentimentRow ⟨aspect, 0, 0, 0, kp, kn⟩).positive = 0 ∧
    (formatSentimentRow ⟨aspect, 0, 0, 0, kp, kn⟩).negative = 0 := by
  constructor <;> simp [formatSentimentRow]

/-! ## C7 -/

/-- C7: each of the four knowledge fetchers returns the empty list (the
empty mapping for the features fetcher) whenever the backing store query
fails, and does not propagate the error. -/
theorem c7_fetchers_fail_closed (e : String) (ids : List ℕ) :
    getCarRelationships (Except.error e) = [] ∧
    getCarFeatures ids (Except.error e) = [] ∧
    getCarTimeline (Except.error e) = [] ∧
    getReviewSentiment (Except.error e) = [] :=
  ⟨rfl, rfl, rfl, rfl⟩

/-! ## C8 -/

theorem isPrefixOf_append_self (n b : List Char) : n.isPrefixOf (n ++ b) = true := by
  induction n with
  | nil => simp [List.isPrefixOf]
  | cons c cs ih => simp [List.isPrefixOf, ih]

theorem containsList_of_prefix (n h : List Char) (hp : n.isPrefixOf h = true) :
    containsList n h = true := by
  cases h <;> simp [containsList, hp]

theorem containsList_append_mid (n a b : List Char) :
    containsList n (a ++ (n ++ b)) = true := by
  induction a with
  | nil => exact containsList_of_prefix _ _ (isPrefixOf_append_self n b)
  | cons c cs ih => simp [containsList, ih]

theorem containsStr_mid (a s b : String) : containsStr s (a ++ s ++ b) = true := by
  unfold containsStr
  rw [String.data_append, String.data_append, List.append_assoc]
  exact containsList_append_mid _ _ _

theorem containsStr_right (a s : String) : containsStr s (a ++ s) = true := by
  unfold containsStr
  rw [String.data_append]
  have h := containsList_append_mid s.data a.data []
  rwa [List.append_nil] at h

/-- C8: with an entity present and at most 2 user turns, the suggestion
generator returns exactly 5 suggestions, each containing the entity display
name as a substring. -/
theorem c8_suggestions (car : CarData) (intent : Option String) (len : ℕ)
    (h : len ≤ 2) :
    (generateSuggestions ⟨some car, intent, len⟩).length = 5 ∧
    ∀ s ∈ generateSuggestions ⟨some car, intent, len⟩,
      containsStr (carDisplayName car) s = true := by
  simp only [generateSuggestions]
  rw [if_pos h]
  refine ⟨rfl, ?_⟩
  intro s hs
  simp only [List.mem_cons, List.not_mem_nil, or_false] at hs
  rcases hs with rfl | rfl | rfl | rfl | rfl
  · exact containsStr_mid _ _ _
  · exact containsStr_right _ _
  · exact containsStr_mid _ _ _
  · exact containsStr_mid _ _ _
  · exact containsStr_mid _ _ _

/-- Witness for C8 at the 2022 Honda Civic with one user turn. -/
theorem c8_suggestions_witness :
    (generateSuggestions ⟨some exampleCar, none, 1⟩).length = 5 ∧
    containsStr (carDisplayName exampleCar) "Is the 2022 Honda Civic reliable?" = true :=
  ⟨(c8_suggestions exampleCar none 1 (by decide)).1,
   (c8_suggestions exampleCar none 1 (by decide)).2
     "Is the 2022 Honda Civic reliable?" (by decide)⟩

/-! ## C9 -/

/-- C9: relationship shaping returns one node per relationship plus the
primary node, one link per relationship, and every link starts at the
primary entity and carries the type and strength of the relationship. -/
theorem c9_relationship_shape (car : CarData) (resp : Except String (List RelRow)) :
    (relationshipCase car resp).nodes.length = 1 + (getCarRelationships resp).length ∧
    (relationshipCase car resp).links.length = (getCarRelationships resp).length ∧
    ∀ (i : ℕ) (h1 : i < (relationshipCase car resp).links.length)
      (h2 : i < (getCarRelationships resp).length),
      ((relationshipCase car resp).links.get ⟨i, h1⟩).source = car.id ∧
      ((relationshipCase car resp).links.get ⟨i, h1⟩).type =
        ((getCarRelationships resp).get ⟨i, h2⟩).type ∧
      ((relationshipCase car resp).links.get ⟨i, h1⟩).strength =
        ((getCarRelationships resp).get ⟨i, h2⟩).strength := by
  refine ⟨?_, ?_, ?_⟩
  · simp only [relationshipCase, List.length_cons, List.length_map]
    omega
  · simp only [relationshipCase, List.length_map]
  · intro i h1 h2
    refine ⟨?_, ?_, ?_⟩ <;>
      simp [relationshipCase, List.get_eq_getElem, List.getElem_map]

/-- Witness for C9 at a single competitor relationship. -/
theorem c9_relationship_shape_witness :
    ((relationshipCase exampleCar (Except.ok [exampleRelRow])).links.get
        ⟨0, by decide⟩).source = exampleCar.id ∧
    (relationshipCase exampleCar (Except.ok [exampleRelRow])).links.length = 1 :=
  ⟨((c9_relationship_shape exampleCar (Except.ok [exampleRelRow])).2.2 0
      (by decide) (by decide)).1,
   (c9_relationship_shape exampleCar (Except.ok [exampleRelRow])).2.1⟩

/-! ## C10 -/

theorem any_isRating_buildAiComponents (data : ChatResponse) (m : ℕ) (a : Analysis)
    (ha : data.analysis = some a) :
    (buildAiComponents data m).any isRatingComponent =
      (match a.average_rating with
       | some r => if r = 0 then false else true
       | none => false) := by
  simp only [buildAiComponents, ha, List.any_append]
  have h1 : (match data.car_data with
      | some cd => if m ≤ 2 then [Component.specification cd] else []
      | none => ([] : List Component)).any isRatingComponent = false := by
    cases data.car_data
    · rfl
    · split <;> simp [isRatingComponent]
  have h2 : (match a.category_scores with
      | some scores => if 0 < scores.length then [Component.category_scores scores] else []
      | none => ([] : List Component)).any isRatingComponent = false := by
    cases a.category_scores
    · rfl
    · split <;> simp [isRatingComponent]
  have h3 : (if optNonempty a.common_pros || optNonempty a.common_cons then
      [Component.pros_cons (a.common_pros.getD []) (a.common_cons.getD [])]
      else ([] : List Component)).any isRatingComponent = false := by
    split <;> simp [isRatingComponent]
  have h4 : (match a.sentiment with
      | some s => [Component.sentiment s]
      | none => ([] : List Component)).any isRatingComponent = false := by
    cases a.sentiment <;> simp [isRatingComponent]
  rw [h1, h2, h3, h4]
  simp only [Bool.false_or]
  cases a.average_rating with
  | none => simp
  | some r =>
      by_cases hr : r = 0 <;> simp [hr, isRatingComponent]

/-- C10: when the backend response carries an analysis object, the rating
card is attached if and only if the average rating is truthy; in
particular, an average rating equal to 0 attaches no rating card. -/
theorem c10_rating_card (data : ChatResponse) (messagesLength : ℕ) (a : Analysis)
    (ha : data.analysis = some a) :
    ((buildAiComponents data messagesLength).any isRatingComponent = true ↔
      ∃ r, a.average_rating = some r ∧ r ≠ 0) ∧
    (a.average_rating = some 0 →
      (buildAiComponents data messagesLength).any isRatingComponent = false) := by
  constructor
  · rw [any_isRating_buildAiComponents data messagesLength a ha]
    cases havg : a.average_rating with
    | none => simp
    | some r =>
        by_cases hr : r = 0 <;> simp [hr]
  · intro h0
    rw [any_isRating_buildAiComponents data messagesLength a ha, h0]
    simp

/-- Witness for C10 at a response whose average rating is present but 0:
no rating card is attached. -/
theorem c10_rating_card_witness :
    (buildAiComponents exampleChatData 0).any isRatingComponent = false :=
  (c10_rating_card exampleChatData 0 exampleAnalysis rfl).2 rfl

end Astra
